import Mathlib

/-!
Verification of the Tidal Home Assistant integration
(`custom_components/tidal`): a shallow embedding of the token manager,
API client, data coordinator and service handlers, with theorems for the
spec's testable properties.
-/

namespace Tidal

/-! ## PKCE helpers (config_flow.py, `async_step_user`)

The config flow generates a PKCE verifier/challenge pair with
`base64.urlsafe_b64encode`, `hashlib.sha256` and `.rstrip("=")`.
Bytes are modelled as `Nat` (values < 256 in practice); `hashlib.sha256`
is an external library primitive and is modelled as an abstract function
`List Nat → List Nat` supplied as a parameter. -/

/-- The URL-safe base64 alphabet used by `base64.urlsafe_b64encode`. -/
def b64Alphabet : List Char :=
  "ABCDEFGHIJKLMNOPQRSTUVWXYZabcdefghijklmnopqrstuvwxyz0123456789-_".toList

/-- Character for one 6-bit group. -/
def b64Char (n : Nat) : Char := b64Alphabet.getD n 'A'

/-- Standard base64 encoding of a byte list, with `=` padding, over the
URL-safe alphabet (the encoding performed by `base64.urlsafe_b64encode`). -/
def b64Encode : List Nat → List Char
  | [] => []
  | [b1] => [b64Char (b1 / 4), b64Char (b1 % 4 * 16), '=', '=']
  | [b1, b2] =>
      [b64Char (b1 / 4), b64Char (b1 % 4 * 16 + b2 / 16), b64Char (b2 % 16 * 4), '=']
  | b1 :: b2 :: b3 :: rest =>
      b64Char (b1 / 4) :: b64Char (b1 % 4 * 16 + b2 / 16) ::
      b64Char (b2 % 16 * 4 + b3 / 64) :: b64Char (b3 % 64) :: b64Encode rest

/-- Models Python's `str.rstrip("=")`: drops the trailing run of `=`. -/
def rstripEq : List Char → List Char
  | [] => []
  | c :: cs =>
      match rstripEq cs with
      | [] => if c = '=' then [] else [c]
      | r => c :: r

/-- `str.encode('utf-8')` restricted to the ASCII range used here. -/
def utf8Bytes (s : List Char) : List Nat := s.map Char.toNat

/-- config_flow.py line 65: the code verifier is the padding-stripped
URL-safe base64 encoding of the random bytes. -/
def pkceVerifier (randomBytes : List Nat) : List Char :=
  rstripEq (b64Encode randomBytes)

/-- config_flow.py lines 66-67: the code challenge is the padding-stripped
URL-safe base64 encoding of SHA-256 of the verifier's UTF-8 bytes. -/
def pkceChallenge (sha256 : List Nat → List Nat) (verifier : List Char) : List Char :=
  rstripEq (b64Encode (sha256 (utf8Bytes verifier)))

/-- The (verifier, challenge) pair generated by `async_step_user`. -/
def pkcePair (sha256 : List Nat → List Nat) (randomBytes : List Nat) :
    List Char × List Char :=
  let v := pkceVerifier randomBytes
  (v, pkceChallenge sha256 v)

/-! ## Errors and token state (api.py)

`TidalAuthError` / `TidalConnectionError` are the only two error kinds of
the client. Token state mirrors the mutable attributes `_access_token`,
`_token_expires`, `_refresh_token`; times are modelled as `Int` seconds.
The token endpoint is modelled by an oracle `TokenEnv` giving, for each
grant kind, either an HTTP response (status plus parsed token payload) or
a transport failure; `raise_for_status` raises exactly for status ≥ 400. -/

/-- The two exception kinds of the client: `TidalAuthError` and
`TidalConnectionError`. -/
inductive TidalError where
  | authError
  | connError
deriving DecidableEq, Repr

/-- The mutable token attributes of `TidalAPI`. -/
structure TokenState where
  access_token : Option String
  token_expires : Option Int
  refresh_token : Option String
deriving DecidableEq, Repr

/-- Parsed JSON payload of a token-endpoint response; `none` fields model
absent keys (read with `.get` in the source). -/
structure TokenResponse where
  access_token : String
  expires_in : Option Int
  refresh_token : Option String
deriving DecidableEq, Repr

/-- Outcome of one POST to the token endpoint. -/
inductive GrantOutcome where
  | response (status : Nat) (body : TokenResponse)
  | transportError

/-- The two grant kinds the client can issue. -/
inductive TokenCall where
  | clientCredentials
  | refreshGrant
deriving DecidableEq, Repr

/-- Behaviour of the token endpoint for each grant kind. -/
def TokenEnv : Type := TokenCall → GrantOutcome

/-- Python truthiness of an optional string (`if not self._access_token`):
`None` and the empty string are falsy. -/
def truthyStr : Option String → Bool
  | none => false
  | some s => !s.isEmpty

namespace TidalAPI

/-- `TidalAPI._get_client_credentials`: POST a client-credentials grant;
on success store the new token, expiry `now + expires_in` (default 3600)
and the response's refresh token (or none); map HTTP errors (status ≥ 400,
via `raise_for_status`) to `TidalAuthError` and transport errors to
`TidalConnectionError`. Returns the new state and the grant calls made. -/
def get_client_credentials (env : TokenEnv) (now : Int) (_st : TokenState) :
    Except TidalError TokenState × List TokenCall :=
  match env .clientCredentials with
  | .response status body =>
      if 400 ≤ status then (.error .authError, [.clientCredentials])
      else
        (.ok { access_token := some body.access_token,
               token_expires := some (now + body.expires_in.getD 3600),
               refresh_token := body.refresh_token },
         [.clientCredentials])
  | .transportError => (.error .connError, [.clientCredentials])

/-- `TidalAPI._refresh_access_token`: POST a refresh-token grant; on
success store the new token, expiry `now + expires_in` (default 3600) and
`token_data.get("refresh_token", self._refresh_token)`. -/
def refresh_access_token (env : TokenEnv) (now : Int) (st : TokenState) :
    Except TidalError TokenState × List TokenCall :=
  match env .refreshGrant with
  | .response status body =>
      if 400 ≤ status then (.error .authError, [.refreshGrant])
      else
        (.ok { access_token := some body.access_token,
               token_expires := some (now + body.expires_in.getD 3600),
               refresh_token := match body.refresh_token with
                 | some r => some r
                 | none => st.refresh_token },
         [.refreshGrant])
  | .transportError => (.error .connError, [.refreshGrant])

/-- `TidalAPI._ensure_token_valid`: with no (truthy) access token or no
expiry, acquire client credentials; if `now ≥ expiry - 300` (expires within
5 minutes), refresh when a refresh token is held, else re-acquire;
otherwise do nothing. -/
def ensure_token_valid (env : TokenEnv) (now : Int) (st : TokenState) :
    Except TidalError TokenState × List TokenCall :=
  if !truthyStr st.access_token || st.token_expires.isNone then
    get_client_credentials env now st
  else if now ≥ st.token_expires.getD 0 - 300 then
    if truthyStr st.refresh_token then refresh_access_token env now st
    else get_client_credentials env now st
  else (.ok st, [])

/-- `TidalAPI.authenticate`: with both tokens (truthy) given, store them
and set expiry to `now + 3600` ("assume token expires in 1 hour") with no
network call; otherwise run the client-credentials flow. -/
def authenticate (env : TokenEnv) (now : Int) (st : TokenState)
    (access_token refresh_token : Option String) :
    Except TidalError TokenState × List TokenCall :=
  if truthyStr access_token && truthyStr refresh_token then
    (.ok { access_token := access_token,
           token_expires := some (now + 3600),
           refresh_token := refresh_token }, [])
  else get_client_credentials env now st

end TidalAPI

/-! ## JSON values and API requests -/

/-- Minimal JSON model for request/response bodies. -/
inductive Json where
  | null
  | str (s : String)
  | arr (elems : List Json)
  | obj (fields : List (String × Json))

/-- Dictionary field lookup (`body["k"]` / `"k" in body`). -/
def Json.getField : Json → String → Option Json
  | .obj fields, k => fields.lookup k
  | _, _ => none

/-- `dict.get(k, default)`. -/
def Json.getFieldD (j : Json) (k : String) (d : Json) : Json :=
  (j.getField k).getD d

/-- One HTTP request as issued by `_request`: method, full URL, headers,
query parameters, optional JSON body. -/
structure HttpRequest where
  method : String
  url : String
  headers : List (String × String)
  params : List (String × String)
  body : Option Json

/-- Outcome of one API HTTP request. -/
inductive ApiOutcome where
  | response (status : Nat) (body : Json)
  | transportError

/-- Behaviour of the Tidal REST API, per request. -/
def ApiEnv : Type := HttpRequest → ApiOutcome

/-- const.py: `API_BASE_URL`. -/
def API_BASE_URL : String := "https://openapi.tidal.com/v2"

/-- `f"{API_BASE_URL}/{endpoint.lstrip('/')}"`: `lstrip('/')` drops the
leading run of `/` characters. -/
def requestUrl (endpoint : String) : String :=
  API_BASE_URL ++ "/" ++ String.mk (endpoint.data.dropWhile (· = '/'))

/-- `if "countryCode" not in params: params["countryCode"] = self._country_code`. -/
def injectCountryCode (country_code : String) (params : List (String × String)) :
    List (String × String) :=
  if params.any (fun p => p.1 == "countryCode") then params
  else params ++ [("countryCode", country_code)]

/-- `f"Bearer {self._access_token}"`. -/
def bearerValue : Option String → String
  | some t => "Bearer " ++ t
  | none => "Bearer None"

/-- The request `_request` builds for post-ensure token state `st`:
URL from the endpoint, bearer and content-type headers, and the
country-code-injected caller params. -/
def builtRequest (country_code : String) (st : TokenState)
    (method endpoint : String) (params : List (String × String))
    (body : Option Json) : HttpRequest :=
  { method := method
    url := requestUrl endpoint
    headers := [("Authorization", bearerValue st.access_token),
                ("Content-Type", "application/vnd.api+json")]
    params := injectCountryCode country_code params
    body := body }

namespace TidalAPI

/-- `TidalAPI._request`: first `_ensure_token_valid` (an error there
propagates and no request is sent); then issue one request with the
bearer and content-type headers and the country-code-injected params;
map a 401 to `TidalAuthError`, any other HTTP error (status ≥ 400) or
transport failure to `TidalConnectionError`, and return the parsed body
otherwise. Returns the result, grant calls made, and requests issued. -/
def request (apiEnv : ApiEnv) (env : TokenEnv) (now : Int)
    (country_code : String) (st : TokenState) (method endpoint : String)
    (params : List (String × String)) (body : Option Json) :
    Except TidalError (TokenState × Json) × List TokenCall × List HttpRequest :=
  match ensure_token_valid env now st with
  | (.error e, calls) => (.error e, calls, [])
  | (.ok st2, calls) =>
      let req : HttpRequest := builtRequest country_code st2 method endpoint params body
      match apiEnv req with
      | .response status rbody =>
          if 400 ≤ status then
            if status = 401 then (.error .authError, calls, [req])
            else (.error .connError, calls, [req])
          else (.ok (st2, rbody), calls, [req])
      | .transportError => (.error .connError, calls, [req])

/-- `response.get("data", default)` applied to a successful request
result (the tail of every accessor method). -/
def extractData (d : Json)
    (r : Except TidalError (TokenState × Json) × List TokenCall × List HttpRequest) :
    Except TidalError (TokenState × Json) × List TokenCall × List HttpRequest :=
  match r with
  | (.ok (st, b), tc, reqs) => (.ok (st, b.getFieldD "data" d), tc, reqs)
  | other => other

/-- `TidalAPI.get_user_playlists`. -/
def get_user_playlists (apiEnv : ApiEnv) (env : TokenEnv) (now : Int)
    (country_code user_id : String) (st : TokenState) :
    Except TidalError (TokenState × Json) × List TokenCall × List HttpRequest :=
  extractData (Json.arr [])
    (request apiEnv env now country_code st "GET"
      ("userCollections/" ++ user_id ++ "/playlists") [] none)

/-- `TidalAPI.get_user_albums`. -/
def get_user_albums (apiEnv : ApiEnv) (env : TokenEnv) (now : Int)
    (country_code user_id : String) (st : TokenState) :
    Except TidalError (TokenState × Json) × List TokenCall × List HttpRequest :=
  extractData (Json.arr [])
    (request apiEnv env now country_code st "GET"
      ("userCollections/" ++ user_id ++ "/albums") [] none)

/-- `TidalAPI.get_user_tracks`. -/
def get_user_tracks (apiEnv : ApiEnv) (env : TokenEnv) (now : Int)
    (country_code user_id : String) (st : TokenState) :
    Except TidalError (TokenState × Json) × List TokenCall × List HttpRequest :=
  extractData (Json.arr [])
    (request apiEnv env now country_code st "GET"
      ("userCollections/" ++ user_id ++ "/tracks") [] none)

/-- `TidalAPI.get_user_artists`. -/
def get_user_artists (apiEnv : ApiEnv) (env : TokenEnv) (now : Int)
    (country_code user_id : String) (st : TokenState) :
    Except TidalError (TokenState × Json) × List TokenCall × List HttpRequest :=
  extractData (Json.arr [])
    (request apiEnv env now country_code st "GET"
      ("userCollections/" ++ user_id ++ "/artists") [] none)

/-- `TidalAPI.get_playlist`. -/
def get_playlist (apiEnv : ApiEnv) (env : TokenEnv) (now : Int)
    (country_code : String) (st : TokenState) (playlist_id : String) :
    Except TidalError (TokenState × Json) × List TokenCall × List HttpRequest :=
  extractData (Json.obj [])
    (request apiEnv env now country_code st "GET"
      ("playlists/" ++ playlist_id) [] none)

/-- `TidalAPI.get_album`. -/
def get_album (apiEnv : ApiEnv) (env : TokenEnv) (now : Int)
    (country_code : String) (st : TokenState) (album_id : String) :
    Except TidalError (TokenState × Json) × List TokenCall × List HttpRequest :=
  extractData (Json.obj [])
    (request apiEnv env now country_code st "GET"
      ("albums/" ++ album_id) [] none)

/-- `TidalAPI.get_track`. -/
def get_track (apiEnv : ApiEnv) (env : TokenEnv) (now : Int)
    (country_code : String) (st : TokenState) (track_id : String) :
    Except TidalError (TokenState × Json) × List TokenCall × List HttpRequest :=
  extractData (Json.obj [])
    (request apiEnv env now country_code st "GET"
      ("tracks/" ++ track_id) [] none)

/-- `TidalAPI.add_to_playlist`: one POST whose JSON:API body lists one
`{"type": "tracks", "id": tid}` entry per track id, in order. -/
def add_to_playlist (apiEnv : ApiEnv) (env : TokenEnv) (now : Int)
    (country_code : String) (st : TokenState) (playlist_id : String)
    (track_ids : List String) :
    Except TidalError (TokenState × Json) × List TokenCall × List HttpRequest :=
  let data := Json.obj [("data", Json.arr (track_ids.map fun track_id =>
    Json.obj [("type", Json.str "tracks"), ("id", Json.str track_id)]))]
  request apiEnv env now country_code st "POST"
    ("playlists/" ++ playlist_id ++ "/tracks") [] (some data)

/-- `TidalAPI.remove_from_playlist`: one DELETE per track id, in order;
the loop stops at the first failing request (the exception propagates). -/
def remove_from_playlist (apiEnv : ApiEnv) (env : TokenEnv) (now : Int)
    (country_code : String) (playlist_id : String) :
    TokenState → List String →
    Except TidalError TokenState × List TokenCall × List HttpRequest
  | st, [] => (.ok st, [], [])
  | st, track_id :: rest =>
      match request apiEnv env now country_code st "DELETE"
          ("playlists/" ++ playlist_id ++ "/tracks/" ++ track_id) [] none with
      | (.error e, tc, reqs) => (.error e, tc, reqs)
      | (.ok (st2, _), tc, reqs) =>
          match remove_from_playlist apiEnv env now country_code playlist_id st2 rest with
          | (r, tc2, reqs2) => (r, tc ++ tc2, reqs ++ reqs2)

end TidalAPI

/-! ## Data coordinator (coordinator.py) -/

/-- The coordinator's poll result: the `"data"` fields of the four
collection fetches (`{"playlists": ..., "albums": ..., "tracks": ...,
"artists": ...}`). -/
structure Snapshot where
  playlists : Json
  albums : Json
  tracks : Json
  artists : Json

/-- `UpdateFailed` as raised by the coordinator, wrapping the client
error that caused it. -/
inductive UpdateFailedErr where
  | updateFailed (e : TidalError)

/-- List elements of a JSON array (iteration over a parsed JSON list). -/
def Json.asArr : Json → List Json
  | .arr xs => xs
  | _ => []

/-- `track["id"]` for one entry of a relationship's `data` list (an id
string in well-formed envelopes). -/
def entryId (t : Json) : String :=
  match t.getField "id" with
  | some (.str s) => s
  | _ => ""

/-- `"relationships" in resource and "tracks" in resource["relationships"]`,
then `resource["relationships"]["tracks"].get("data", [])`: `none` when
the resource has no tracks relationship. -/
def relationshipTrackEntries (resource : Json) : Option (List Json) :=
  match resource.getField "relationships" with
  | none => none
  | some rels =>
      match rels.getField "tracks" with
      | none => none
      | some tr => some (Json.asArr (tr.getFieldD "data" (Json.arr [])))

namespace TidalDataUpdateCoordinator

/-- The track-fetch loop shared verbatim by both detail fetchers:
`for track_id in track_ids: tracks.append(await self.api.get_track(track_id))`;
an error mid-loop propagates and partial results are discarded. -/
def fetchTracks (apiEnv : ApiEnv) (env : TokenEnv) (now : Int)
    (country_code : String) :
    TokenState → List String →
    Except TidalError (TokenState × List Json) × List HttpRequest
  | st, [] => (.ok (st, []), [])
  | st, track_id :: rest =>
      match TidalAPI.get_track apiEnv env now country_code st track_id with
      | (.error e, _, reqs) => (.error e, reqs)
      | (.ok (st2, trk), _, reqs) =>
          match fetchTracks apiEnv env now country_code st2 rest with
          | (.error e, reqs2) => (.error e, reqs ++ reqs2)
          | (.ok (st3, trks), reqs2) => (.ok (st3, trk :: trks), reqs ++ reqs2)

/-- `TidalDataUpdateCoordinator._async_update_data`: fetch the four
collections sequentially; build the snapshot only after all four
succeed; any client error becomes `UpdateFailed` (as does any other
exception, by the final broad `except`). Returns the result and the
requests issued. -/
def async_update_data (apiEnv : ApiEnv) (env : TokenEnv) (now : Int)
    (country_code user_id : String) (st : TokenState) :
    Except UpdateFailedErr (TokenState × Snapshot) × List HttpRequest :=
  match TidalAPI.get_user_playlists apiEnv env now country_code user_id st with
  | (.error e, _, reqs1) => (.error (.updateFailed e), reqs1)
  | (.ok (st1, playlists), _, reqs1) =>
      match TidalAPI.get_user_albums apiEnv env now country_code user_id st1 with
      | (.error e, _, reqs2) => (.error (.updateFailed e), reqs1 ++ reqs2)
      | (.ok (st2, albums), _, reqs2) =>
          match TidalAPI.get_user_tracks apiEnv env now country_code user_id st2 with
          | (.error e, _, reqs3) => (.error (.updateFailed e), reqs1 ++ reqs2 ++ reqs3)
          | (.ok (st3, tracks), _, reqs3) =>
              match TidalAPI.get_user_artists apiEnv env now country_code user_id st3 with
              | (.error e, _, reqs4) =>
                  (.error (.updateFailed e), reqs1 ++ reqs2 ++ reqs3 ++ reqs4)
              | (.ok (st4, artists), _, reqs4) =>
                  (.ok (st4, ⟨playlists, albums, tracks, artists⟩),
                   reqs1 ++ reqs2 ++ reqs3 ++ reqs4)

/-- One poll step of the host's `DataUpdateCoordinator`: on success the
returned snapshot replaces `self.data`; when `_async_update_data` raises
`UpdateFailed`, the previously-held data is retained. -/
def poll (apiEnv : ApiEnv) (env : TokenEnv) (now : Int)
    (country_code user_id : String) (st : TokenState)
    (old : Option Snapshot) : Option Snapshot :=
  match (async_update_data apiEnv env now country_code user_id st).1 with
  | .ok (_, snap) => some snap
  | .error _ => old

/-- `TidalDataUpdateCoordinator.async_get_playlist_tracks`: fetch the
playlist, extract the track ids from its tracks relationship, fetch each
track individually in order; empty list when there is no tracks
relationship. -/
def async_get_playlist_tracks (apiEnv : ApiEnv) (env : TokenEnv) (now : Int)
    (country_code : String) (st : TokenState) (playlist_id : String) :
    Except UpdateFailedErr (TokenState × List Json) × List HttpRequest :=
  match TidalAPI.get_playlist apiEnv env now country_code st playlist_id with
  | (.error e, _, reqs) => (.error (.updateFailed e), reqs)
  | (.ok (st1, playlist), _, reqs) =>
      match relationshipTrackEntries playlist with
      | some entries =>
          match fetchTracks apiEnv env now country_code st1 (entries.map entryId) with
          | (.error e, reqs2) => (.error (.updateFailed e), reqs ++ reqs2)
          | (.ok (st2, tracks), reqs2) => (.ok (st2, tracks), reqs ++ reqs2)
      | none => (.ok (st1, []), reqs)

/-- `TidalDataUpdateCoordinator.async_get_album_tracks`: same shape over
`get_album`. -/
def async_get_album_tracks (apiEnv : ApiEnv) (env : TokenEnv) (now : Int)
    (country_code : String) (st : TokenState) (album_id : String) :
    Except UpdateFailedErr (TokenState × List Json) × List HttpRequest :=
  match TidalAPI.get_album apiEnv env now country_code st album_id with
  | (.error e, _, reqs) => (.error (.updateFailed e), reqs)
  | (.ok (st1, album), _, reqs) =>
      match relationshipTrackEntries album with
      | some entries =>
          match fetchTracks apiEnv env now country_code st1 (entries.map entryId) with
          | (.error e, reqs2) => (.error (.updateFailed e), reqs ++ reqs2)
          | (.ok (st2, tracks), reqs2) => (.ok (st2, tracks), reqs ++ reqs2)
      | none => (.ok (st1, []), reqs)

end TidalDataUpdateCoordinator

/-! ## Service handlers (services.py) -/

/-- `handle_add_to_playlist`: call `api.add_to_playlist`, then request
exactly one coordinator refresh; on an exception the error is logged and
no refresh is requested. Returns the requests issued and the number of
refresh requests. -/
def handle_add_to_playlist (apiEnv : ApiEnv) (env : TokenEnv) (now : Int)
    (country_code : String) (st : TokenState) (playlist_id : String)
    (track_ids : List String) : List HttpRequest × Nat :=
  match TidalAPI.add_to_playlist apiEnv env now country_code st playlist_id track_ids with
  | (.ok _, _, reqs) => (reqs, 1)
  | (.error _, _, reqs) => (reqs, 0)

/-! ## Method surface (api.py class body, config_flow.py authorize step) -/

/-- The names of the methods defined on class `TidalAPI` in api.py,
in source order (including the two properties). -/
def tidalAPIMethods : List String :=
  ["__init__", "authenticate", "_get_client_credentials", "_ensure_token_valid",
   "_refresh_access_token", "_request", "get_user_playlists", "get_user_albums",
   "get_user_tracks", "get_user_artists", "get_album", "get_track",
   "get_playlist", "get_artist", "search", "create_playlist", "add_to_playlist",
   "remove_from_playlist", "add_favorite_album", "remove_favorite_album",
   "add_favorite_track", "remove_favorite_track", "is_authenticated", "user_id"]

/-- The `TidalAPI` methods invoked on the freshly-built client by
`TidalFlowHandler.async_step_authorize` (config_flow.py lines 145-148). -/
def authorizeStepApiCalls : List String := ["authenticate", "get_current_user"]

/-! ## Sample environments and states (used to instantiate theorems) -/

/-- `_request`'s handling of one API outcome for post-ensure state `st`
(the inner try/except of `_request`, factored for statements). -/
def outcomeResult (st : TokenState) : ApiOutcome → Except TidalError (TokenState × Json)
  | .response status rbody =>
      if 400 ≤ status then
        if status = 401 then .error .authError else .error .connError
      else .ok (st, rbody)
  | .transportError => .error .connError

/-- A token endpoint that always fails at transport level. -/
def envNone : TokenEnv := fun _ => GrantOutcome.transportError

/-- A token endpoint that always grants a fixed fresh token. -/
def envGrant : TokenEnv :=
  fun _ => GrantOutcome.response 200
    { access_token := "fresh", expires_in := some 3600, refresh_token := some "r2" }

/-- A held token valid until time 100000. -/
def tok0 : TokenState :=
  { access_token := some "tok", token_expires := some 100000,
    refresh_token := some "ref" }

/-- A held token expiring at time 200 (within 5 minutes of time 0). -/
def tokExpiring : TokenState :=
  { access_token := some "old", token_expires := some 200,
    refresh_token := some "ref" }

/-- The empty token state (fresh client). -/
def tokEmpty : TokenState :=
  { access_token := none, token_expires := none, refresh_token := none }

/-- An API that answers every request with `401`. -/
def api401 : ApiEnv := fun _ => ApiOutcome.response 401 Json.null

/-- An API that answers every request with `200 {}`. -/
def apiOk : ApiEnv := fun _ => ApiOutcome.response 200 (Json.obj [])

/-- An API that answers every request with `304 {}` (non-2xx, below 400). -/
def api304 : ApiEnv := fun _ => ApiOutcome.response 304 (Json.obj [])

/-- A stand-in for the abstract SHA-256 digest function. -/
def sha0 : List Nat → List Nat := fun _ => List.replicate 32 7

/-- A snapshot with four empty collections. -/
def snap0 : Snapshot :=
  { playlists := Json.arr [], albums := Json.arr [],
    tracks := Json.arr [], artists := Json.arr [] }

/-- An API whose tracks-collection fetch fails at transport level while
every other request succeeds with `200 {}` (for user `"u1"`). -/
def apiFailTracks : ApiEnv := fun q =>
  if q.url == requestUrl "userCollections/u1/tracks" then ApiOutcome.transportError
  else ApiOutcome.response 200 (Json.obj [])

/-- A playlist envelope whose tracks relationship lists one track `"t1"`. -/
def playlistBody : Json :=
  Json.obj [("data", Json.obj [("relationships", Json.obj [("tracks",
    Json.obj [("data", Json.arr [Json.obj [("id", Json.str "t1")]])])])])]

/-- An API returning `playlistBody` for playlist `"p1"` and `200 {}`
for every other request. -/
def apiC9 : ApiEnv := fun q =>
  if q.url == requestUrl "playlists/p1" then ApiOutcome.response 200 playlistBody
  else ApiOutcome.response 200 (Json.obj [])

/-! # Theorems -/

/-! ## Base64url facts -/

theorem b64Char_ne_pad (n : Nat) : b64Char n ≠ '=' := by
  unfold b64Char
  by_cases h : n < b64Alphabet.length
  · rw [List.getD_eq_getElem _ _ h]
    have hm : b64Alphabet[n] ∈ b64Alphabet := List.getElem_mem h
    have hnotin : '=' ∉ b64Alphabet := by decide
    intro he
    exact hnotin (he ▸ hm)
  · rw [List.getD_eq_default _ _ (Nat.le_of_not_lt h)]
    decide

theorem rstripEq_cons_of_ne_nil (c : Char) (l : List Char) (h : rstripEq l ≠ []) :
    rstripEq (c :: l) = c :: rstripEq l := by
  rw [rstripEq]
  cases hr : rstripEq l with
  | nil => exact absurd hr h
  | cons a r => rfl

theorem rstripEq_len_of_len_mod (k : Nat) :
    ∀ bs : List Nat, bs.length = 3 * k + 2 →
      (rstripEq (b64Encode bs)).length = 4 * k + 3 := by
  induction k with
  | zero =>
      intro bs hlen
      match bs, hlen with
      | [b1, b2], _ =>
        simp only [b64Encode, rstripEq]
        simp [b64Char_ne_pad]
  | succ k ih =>
      intro bs hlen
      match bs with
      | b1 :: b2 :: b3 :: rest =>
        have hrest : rest.length = 3 * k + 2 := by
          simp only [List.length_cons] at hlen
          omega
        have htail := ih rest hrest
        have hne : rstripEq (b64Encode rest) ≠ [] := by
          intro hnil
          rw [hnil] at htail
          simp at htail
        rw [show b64Encode (b1 :: b2 :: b3 :: rest) =
              b64Char (b1 / 4) :: b64Char (b1 % 4 * 16 + b2 / 16) ::
              b64Char (b2 % 16 * 4 + b3 / 64) :: b64Char (b3 % 64) ::
              b64Encode rest from rfl]
        have h4 : rstripEq (b64Char (b3 % 64) :: b64Encode rest) =
            b64Char (b3 % 64) :: rstripEq (b64Encode rest) :=
          rstripEq_cons_of_ne_nil _ _ hne
        have hne4 : rstripEq (b64Char (b3 % 64) :: b64Encode rest) ≠ [] := by
          rw [h4]; exact List.cons_ne_nil _ _
        have h3 := rstripEq_cons_of_ne_nil (b64Char (b2 % 16 * 4 + b3 / 64)) _ hne4
        have hne3 : rstripEq (b64Char (b2 % 16 * 4 + b3 / 64) ::
            b64Char (b3 % 64) :: b64Encode rest) ≠ [] := by
          rw [h3]; exact List.cons_ne_nil _ _
        have h2 := rstripEq_cons_of_ne_nil (b64Char (b1 % 4 * 16 + b2 / 16)) _ hne3
        have hne2 : rstripEq (b64Char (b1 % 4 * 16 + b2 / 16) ::
            b64Char (b2 % 16 * 4 + b3 / 64) :: b64Char (b3 % 64) ::
            b64Encode rest) ≠ [] := by
          rw [h2]; exact List.cons_ne_nil _ _
        have h1 := rstripEq_cons_of_ne_nil (b64Char (b1 / 4)) _ hne2
        rw [h1, h2, h3, h4]
        simp only [List.length_cons, htail]
        omega
      | [] => simp at hlen
      | [b1] => simp at hlen
      | [b1, b2] => simp at hlen

/-! ## Token manager helper lemmas -/

theorem get_client_credentials_calls (env : TokenEnv) (now : Int) (st : TokenState) :
    (TidalAPI.get_client_credentials env now st).2 = [TokenCall.clientCredentials] := by
  unfold TidalAPI.get_client_credentials
  cases env .clientCredentials with
  | response s b =>
      dsimp only
      split <;> rfl
  | transportError => rfl

theorem ensure_noop (env : TokenEnv) (now : Int) (st : TokenState) (exp : Int)
    (hA : truthyStr st.access_token = true) (hE : st.token_expires = some exp)
    (hT : now < exp - 300) :
    TidalAPI.ensure_token_valid env now st = (.ok st, []) := by
  have hcond : ¬(now ≥ exp - 300) := by omega
  simp [TidalAPI.ensure_token_valid, hA, hE, hcond]

theorem request_eval_valid (apiEnv : ApiEnv) (env : TokenEnv) (now exp : Int)
    (cc : String) (st : TokenState) (m ep : String)
    (ps : List (String × String)) (bd : Option Json)
    (hA : truthyStr st.access_token = true) (hE : st.token_expires = some exp)
    (hT : now < exp - 300) :
    TidalAPI.request apiEnv env now cc st m ep ps bd =
      (outcomeResult st (apiEnv (builtRequest cc st m ep ps bd)), [],
       [builtRequest cc st m ep ps bd]) := by
  unfold TidalAPI.request
  rw [ensure_noop env now st exp hA hE hT]
  dsimp only
  cases apiEnv (builtRequest cc st m ep ps bd) with
  | response s b =>
      dsimp only [outcomeResult]
      split
      · split <;> rfl
      · rfl
  | transportError => rfl

/-! ## Claim theorems -/

/-- C1: for every (verifier, challenge) pair generated by the PKCE routine
from 32 random bytes, the challenge equals base64url(SHA256(verifier))
with the `=` padding stripped, and the verifier (the no-padding base64url
encoding of the 32 bytes) has length between 43 and 128 inclusive. -/
theorem C1_pkce_verifier_challenge (sha256 : List Nat → List Nat)
    (randomBytes : List Nat) (hlen : randomBytes.length = 32) :
    (pkcePair sha256 randomBytes).2 =
      rstripEq (b64Encode (sha256 (utf8Bytes (pkcePair sha256 randomBytes).1))) ∧
    43 ≤ (pkcePair sha256 randomBytes).1.length ∧
    (pkcePair sha256 randomBytes).1.length ≤ 128 := by
  have h1 : (pkcePair sha256 randomBytes).1 = pkceVerifier randomBytes := rfl
  have h43 : (pkceVerifier randomBytes).length = 43 := by
    have h := rstripEq_len_of_len_mod 10 randomBytes (by omega)
    unfold pkceVerifier
    omega
  refine ⟨rfl, ?_, ?_⟩
  · rw [h1, h43]
  · rw [h1, h43]
    omega

/-- Witness for C1 at 32 zero bytes and a stand-in digest function. -/
theorem C1_witness :
    (pkcePair sha0 (List.replicate 32 0)).2 =
      rstripEq (b64Encode (sha0 (utf8Bytes (pkcePair sha0 (List.replicate 32 0)).1))) ∧
    43 ≤ (pkcePair sha0 (List.replicate 32 0)).1.length ∧
    (pkcePair sha0 (List.replicate 32 0)).1.length ≤ 128 :=
  C1_pkce_verifier_challenge sha0 (List.replicate 32 0) (by simp)

/-- C5: with an access token held whose expiry is more than 5 minutes
after both call instants, two successive `_ensure_token_valid` calls
issue zero network calls and leave the token state unchanged. -/
theorem C5_ensure_valid_idempotent (env : TokenEnv) (t1 t2 exp : Int)
    (st : TokenState) (hA : truthyStr st.access_token = true)
    (hE : st.token_expires = some exp) (h12 : t1 ≤ t2) (hT : t2 + 300 < exp) :
    TidalAPI.ensure_token_valid env t1 st = (.ok st, []) ∧
    TidalAPI.ensure_token_valid env t2 st = (.ok st, []) :=
  ⟨ensure_noop env t1 st exp hA hE (by omega),
   ensure_noop env t2 st exp hA hE (by omega)⟩

/-- Witness for C5 at a concrete state and times 0, 1. -/
theorem C5_witness :
    TidalAPI.ensure_token_valid envNone 0 tok0 = (.ok tok0, []) ∧
    TidalAPI.ensure_token_valid envNone 1 tok0 = (.ok tok0, []) :=
  C5_ensure_valid_idempotent envNone 0 1 100000 tok0 (by decide) rfl
    (by decide) (by decide)

/-- C8: the config flow's authorize step invokes `get_current_user` on the
API client, but class `TidalAPI` defines no method of that name — the
current-user read the claim describes is missing from the client. -/
theorem C8_get_current_user_missing :
    "get_current_user" ∈ authorizeStepApiCalls ∧
    "get_current_user" ∉ tidalAPIMethods := by
  decide

/-- C10: `authenticate` called with both tokens (truthy) stores them, sets
expiry to exactly one hour from now, and issues no network call; with
either token argument absent (or empty, which Python treats as absent) it
runs the client-credentials acquisition, issuing that one grant call. -/
theorem C10_authenticate (env : TokenEnv) (now : Int) (st : TokenState)
    (atk rtk : Option String) :
    (truthyStr atk = true → truthyStr rtk = true →
      TidalAPI.authenticate env now st atk rtk =
        (.ok { access_token := atk, token_expires := some (now + 3600),
               refresh_token := rtk }, []))
    ∧ ((truthyStr atk = false ∨ truthyStr rtk = false) →
      TidalAPI.authenticate env now st atk rtk =
        TidalAPI.get_client_credentials env now st ∧
      (TidalAPI.authenticate env now st atk rtk).2 = [TokenCall.clientCredentials]) := by
  constructor
  · intro h1 h2
    unfold TidalAPI.authenticate
    rw [h1, h2]
    rfl
  · intro h
    have hcond : (truthyStr atk && truthyStr rtk) = false := by
      cases h with
      | inl h => rw [h]; rfl
      | inr h => simp [h]
    unfold TidalAPI.authenticate
    rw [if_neg (by simp [hcond])]
    exact ⟨rfl, get_client_credentials_calls env now st⟩

/-- Witness for C10: both-tokens path at concrete inputs, and the
client-credentials path with the access token absent. -/
theorem C10_witness :
    TidalAPI.authenticate envNone 5 tok0 (some "a") (some "r") =
      (.ok { access_token := some "a", token_expires := some (5 + 3600),
             refresh_token := some "r" }, []) ∧
    TidalAPI.authenticate envNone 5 tok0 none (some "r") =
      TidalAPI.get_client_credentials envNone 5 tok0 :=
  ⟨(C10_authenticate envNone 5 tok0 (some "a") (some "r")).1 (by decide) (by decide),
   ((C10_authenticate envNone 5 tok0 none (some "r")).2 (Or.inl (by decide))).1⟩

/-- C4: if the held token expires in less than 5 minutes and a refresh
token is present, `_ensure_token_valid` issues exactly one refresh-token
grant and moves the stored expiry forward in time (for any well-formed
grant response, `expires_in > 300`); if no access token and no expiry is
held, it runs the client-credentials acquisition instead (one such call). -/
theorem C4_ensure_valid_refresh_or_acquire (env : TokenEnv) (now exp : Int)
    (st : TokenState) (s : Nat) (body : TokenResponse) :
    (truthyStr st.access_token = true → st.token_expires = some exp →
     exp - now < 300 → truthyStr st.refresh_token = true →
     env .refreshGrant = GrantOutcome.response s body → s < 400 →
     300 < body.expires_in.getD 3600 →
       TidalAPI.ensure_token_valid env now st =
         (.ok { access_token := some body.access_token,
                token_expires := some (now + body.expires_in.getD 3600),
                refresh_token := match body.refresh_token with
                  | some r => some r
                  | none => st.refresh_token },
          [TokenCall.refreshGrant]) ∧
       exp < now + body.expires_in.getD 3600)
    ∧ (st.access_token = none → st.token_expires = none →
       TidalAPI.ensure_token_valid env now st =
         TidalAPI.get_client_credentials env now st ∧
       (TidalAPI.ensure_token_valid env now st).2 = [TokenCall.clientCredentials]) := by
  constructor
  · intro hA hE hT hR henv hs hd
    refine ⟨?_, by omega⟩
    unfold TidalAPI.ensure_token_valid
    rw [if_neg (by rw [hA, hE]; simp)]
    rw [if_pos (show now ≥ st.token_expires.getD 0 - 300 by
      rw [hE]; simp only [Option.getD_some]; omega)]
    rw [if_pos hR]
    unfold TidalAPI.refresh_access_token
    rw [henv]
    dsimp only
    rw [if_neg (by omega)]
  · intro h1 h2
    have hfalse : truthyStr st.access_token = false := by rw [h1]; rfl
    unfold TidalAPI.ensure_token_valid
    rw [if_pos (by rw [hfalse]; rfl)]
    exact ⟨rfl, get_client_credentials_calls env now st⟩

/-- Witness for C4: the refresh path on a token expiring at 200 seen at
time 0, and the acquisition path on the empty state. -/
theorem C4_witness :
    (TidalAPI.ensure_token_valid envGrant 0 tokExpiring =
       (.ok { access_token := some "fresh", token_expires := some 3600,
              refresh_token := some "r2" }, [TokenCall.refreshGrant]) ∧
     (200 : Int) < 0 + 3600) ∧
    TidalAPI.ensure_token_valid envGrant 0 tokEmpty =
      TidalAPI.get_client_credentials envGrant 0 tokEmpty :=
  ⟨by
    have h := (C4_ensure_valid_refresh_or_acquire envGrant 0 200 tokExpiring 200
        { access_token := "fresh", expires_in := some 3600,
          refresh_token := some "r2" }).1
      (by decide) rfl (by decide) (by decide) rfl (by decide) (by decide)
    simpa using h,
   ((C4_ensure_valid_refresh_or_acquire envGrant 0 200 tokEmpty 200
        { access_token := "fresh", expires_in := some 3600,
          refresh_token := some "r2" }).2 rfl rfl).1⟩

/-- C3 (amended): a 401 from any request raises `TidalAuthError`; any
other HTTP status ≥ 400 or a transport failure raises
`TidalConnectionError`; a status below 400 returns the parsed body as
success; and every error escaping `_request` is one of those two kinds. -/
theorem C3_request_error_mapping (apiEnv : ApiEnv) (env : TokenEnv)
    (now exp : Int) (cc : String) (st : TokenState) (m ep : String)
    (ps : List (String × String)) (bd : Option Json)
    (hA : truthyStr st.access_token = true) (hE : st.token_expires = some exp)
    (hT : now < exp - 300) :
    (∀ b, apiEnv (builtRequest cc st m ep ps bd) = ApiOutcome.response 401 b →
      (TidalAPI.request apiEnv env now cc st m ep ps bd).1 =
        .error TidalError.authError)
    ∧ (∀ s b, apiEnv (builtRequest cc st m ep ps bd) = ApiOutcome.response s b →
        400 ≤ s → s ≠ 401 →
      (TidalAPI.request apiEnv env now cc st m ep ps bd).1 =
        .error TidalError.connError)
    ∧ (apiEnv (builtRequest cc st m ep ps bd) = ApiOutcome.transportError →
      (TidalAPI.request apiEnv env now cc st m ep ps bd).1 =
        .error TidalError.connError)
    ∧ (∀ s b, apiEnv (builtRequest cc st m ep ps bd) = ApiOutcome.response s b →
        s < 400 →
      (TidalAPI.request apiEnv env now cc st m ep ps bd).1 = .ok (st, b))
    ∧ (∀ e, (TidalAPI.request apiEnv env now cc st m ep ps bd).1 = .error e →
        e = TidalError.authError ∨ e = TidalError.connError) := by
  have hr := request_eval_valid apiEnv env now exp cc st m ep ps bd hA hE hT
  refine ⟨?_, ?_, ?_, ?_, ?_⟩
  · intro b h
    rw [hr]
    dsimp only
    rw [h]
    rfl
  · intro s b h hge hne
    rw [hr]
    dsimp only
    rw [h]
    dsimp only [outcomeResult]
    rw [if_pos hge, if_neg hne]
  · intro h
    rw [hr]
    dsimp only
    rw [h]
    rfl
  · intro s b h hlt
    rw [hr]
    dsimp only
    rw [h]
    dsimp only [outcomeResult]
    rw [if_neg (by omega)]
  · intro e _
    cases e
    · exact Or.inl rfl
    · exact Or.inr rfl

/-- Witness for C3's amended mapping: a 401 response mapped to
`TidalAuthError` at concrete inputs. -/
theorem C3_witness :
    (TidalAPI.request api401 envNone 0 "US" tok0 "GET" "tracks/t1" [] none).1 =
      .error TidalError.authError :=
  (C3_request_error_mapping api401 envNone 0 100000 "US" tok0 "GET" "tracks/t1"
    [] none (by decide) rfl (by decide)).1 Json.null rfl

/-- C3 counterexample: HTTP 304 is non-2xx, yet `_request` returns the
body successfully (aiohttp's `raise_for_status` raises only for ≥ 400),
contradicting "any other non-2xx HTTP status raises ConnectionError". -/
theorem C3_counterexample :
    (TidalAPI.request api304 envNone 0 "US" tok0 "GET" "tracks/t1" [] none).1 =
      .ok (tok0, Json.obj []) := rfl

theorem get_client_credentials_ok_token (env : TokenEnv) (now : Int)
    (st st2 : TokenState) (calls : List TokenCall)
    (hEnv : ∀ c s b, env c = GrantOutcome.response s b → 0 < b.expires_in.getD 3600)
    (h : TidalAPI.get_client_credentials env now st = (.ok st2, calls)) :
    ∃ t e, st2.access_token = some t ∧ st2.token_expires = some e ∧ now < e := by
  unfold TidalAPI.get_client_credentials at h
  cases henv : env .clientCredentials with
  | response s b =>
      rw [henv] at h
      dsimp only at h
      split at h
      · simp at h
      · simp only [Prod.mk.injEq, Except.ok.injEq] at h
        obtain ⟨h1, _⟩ := h
        refine ⟨b.access_token, now + b.expires_in.getD 3600, ?_, ?_, ?_⟩
        · rw [← h1]
        · rw [← h1]
        · have := hEnv _ _ _ henv
          omega
  | transportError =>
      rw [henv] at h
      simp at h

theorem refresh_access_token_ok_token (env : TokenEnv) (now : Int)
    (st st2 : TokenState) (calls : List TokenCall)
    (hEnv : ∀ c s b, env c = GrantOutcome.response s b → 0 < b.expires_in.getD 3600)
    (h : TidalAPI.refresh_access_token env now st = (.ok st2, calls)) :
    ∃ t e, st2.access_token = some t ∧ st2.token_expires = some e ∧ now < e := by
  unfold TidalAPI.refresh_access_token at h
  cases henv : env .refreshGrant with
  | response s b =>
      rw [henv] at h
      dsimp only at h
      split at h
      · simp at h
      · simp only [Prod.mk.injEq, Except.ok.injEq] at h
        obtain ⟨h1, _⟩ := h
        refine ⟨b.access_token, now + b.expires_in.getD 3600, ?_, ?_, ?_⟩
        · rw [← h1]
        · rw [← h1]
        · have := hEnv _ _ _ henv
          omega
  | transportError =>
      rw [henv] at h
      simp at h

theorem ensure_ok_token (env : TokenEnv) (now : Int) (st st2 : TokenState)
    (calls : List TokenCall)
    (hEnv : ∀ c s b, env c = GrantOutcome.response s b → 0 < b.expires_in.getD 3600)
    (h : TidalAPI.ensure_token_valid env now st = (.ok st2, calls)) :
    ∃ t e, st2.access_token = some t ∧ st2.token_expires = some e ∧ now < e := by
  unfold TidalAPI.ensure_token_valid at h
  split at h
  · exact get_client_credentials_ok_token env now st st2 calls hEnv h
  · split at h
    · split at h
      · exact refresh_access_token_ok_token env now st st2 calls hEnv h
      · exact get_client_credentials_ok_token env now st st2 calls hEnv h
    · rename_i hc1 hc2
      simp only [Prod.mk.injEq, Except.ok.injEq] at h
      obtain ⟨h1, _⟩ := h
      subst h1
      simp only [Bool.or_eq_true, Bool.not_eq_true', not_or] at hc1
      obtain ⟨hA, hN⟩ := hc1
      cases hacc : st.access_token with
      | none => rw [hacc] at hA; simp [truthyStr] at hA
      | some t =>
          cases hexp : st.token_expires with
          | none => rw [hexp] at hN; simp at hN
          | some e =>
              refine ⟨t, e, rfl, rfl, ?_⟩
              rw [hexp] at hc2
              simp only [Option.getD_some] at hc2
              omega

/-- C7: `_request` runs the token-validity check first — if it fails no
request is issued (refused before being sent); otherwise the ensured
state holds a non-expired access token and exactly one request goes out,
carrying the `Authorization: Bearer` and
`Content-Type: application/vnd.api+json` headers, with `countryCode`
injected into the params exactly when the caller did not supply one
(the caller's params are kept verbatim when it did). Grant responses are
assumed well-formed (`expires_in > 0`). -/
theorem C7_request_invariants (apiEnv : ApiEnv) (env : TokenEnv) (now : Int)
    (cc : String) (st : TokenState) (m ep : String)
    (ps : List (String × String)) (bd : Option Json)
    (hEnv : ∀ c s b, env c = GrantOutcome.response s b → 0 < b.expires_in.getD 3600) :
    (∀ e calls, TidalAPI.ensure_token_valid env now st = (.error e, calls) →
      TidalAPI.request apiEnv env now cc st m ep ps bd = (.error e, calls, []))
    ∧ (∀ st2 calls, TidalAPI.ensure_token_valid env now st = (.ok st2, calls) →
      (TidalAPI.request apiEnv env now cc st m ep ps bd).2.2 =
        [builtRequest cc st2 m ep ps bd]
      ∧ (∃ t e, st2.access_token = some t ∧ st2.token_expires = some e ∧ now < e)
      ∧ (builtRequest cc st2 m ep ps bd).headers =
          [("Authorization", bearerValue st2.access_token),
           ("Content-Type", "application/vnd.api+json")]
      ∧ ((ps.any fun p => p.1 == "countryCode") = false →
          (builtRequest cc st2 m ep ps bd).params = ps ++ [("countryCode", cc)])
      ∧ ((ps.any fun p => p.1 == "countryCode") = true →
          (builtRequest cc st2 m ep ps bd).params = ps)) := by
  constructor
  · intro e calls h
    unfold TidalAPI.request
    rw [h]
  · intro st2 calls h
    refine ⟨?_, ensure_ok_token env now st st2 calls hEnv h, rfl, ?_, ?_⟩
    · unfold TidalAPI.request
      rw [h]
      dsimp only
      cases apiEnv (builtRequest cc st2 m ep ps bd) with
      | response s b =>
          dsimp only
          split
          · split <;> rfl
          · rfl
      | transportError => rfl
    · intro hany
      simp [builtRequest, injectCountryCode, hany]
    · intro hany
      simp [builtRequest, injectCountryCode, hany]

/-- Witness for C7: the success side at a held valid token, empty caller
params, against an always-200 API. -/
theorem C7_witness :
    (TidalAPI.request apiOk envGrant 0 "US" tok0 "GET" "albums/a1" [] none).2.2 =
      [builtRequest "US" tok0 "GET" "albums/a1" [] none]
    ∧ (∃ t e, tok0.access_token = some t ∧ tok0.token_expires = some e ∧ (0 : Int) < e)
    ∧ (builtRequest "US" tok0 "GET" "albums/a1" [] none).headers =
        [("Authorization", bearerValue tok0.access_token),
         ("Content-Type", "application/vnd.api+json")]
    ∧ ((([] : List (String × String)).any fun p => p.1 == "countryCode") = false →
        (builtRequest "US" tok0 "GET" "albums/a1" [] none).params =
          [] ++ [("countryCode", "US")])
    ∧ ((([] : List (String × String)).any fun p => p.1 == "countryCode") = true →
        (builtRequest "US" tok0 "GET" "albums/a1" [] none).params = []) :=
  (C7_request_invariants apiOk envGrant 0 "US" tok0 "GET" "albums/a1" [] none
    (by intro c s b h; injection h with h1 h2; subst h2; decide)).2
    tok0 [] (by rfl)

theorem remove_from_playlist_requests (apiEnv : ApiEnv) (env : TokenEnv)
    (now exp : Int) (cc pid : String) (st : TokenState)
    (hA : truthyStr st.access_token = true) (hE : st.token_expires = some exp)
    (hT : now < exp - 300)
    (hApi : ∀ q, ∃ s b, apiEnv q = ApiOutcome.response s b ∧ s < 400) :
    ∀ tids : List String,
      (TidalAPI.remove_from_playlist apiEnv env now cc pid st tids).2.2 =
        tids.map (fun tid => builtRequest cc st "DELETE"
          ("playlists/" ++ pid ++ "/tracks/" ++ tid) [] none) := by
  intro tids
  induction tids with
  | nil => rfl
  | cons tid rest ih =>
      obtain ⟨s, b, hq, hs⟩ := hApi (builtRequest cc st "DELETE"
        ("playlists/" ++ pid ++ "/tracks/" ++ tid) [] none)
      unfold TidalAPI.remove_from_playlist
      rw [request_eval_valid apiEnv env now exp cc st "DELETE"
        ("playlists/" ++ pid ++ "/tracks/" ++ tid) [] none hA hE hT]
      rw [hq]
      dsimp only [outcomeResult]
      rw [if_neg (by omega)]
      cases hrm : TidalAPI.remove_from_playlist apiEnv env now cc pid st rest with
      | mk r rest2 =>
          cases rest2 with
          | mk tc2 reqs2 =>
              rw [hrm] at ih
              dsimp only at ih
              dsimp only
              rw [hrm]
              dsimp only
              rw [ih]
              simp

/-- C6: `add_to_playlist` issues exactly one POST whose JSON:API body
lists one `{"type": "tracks", "id": tid}` entry per track id, in order;
the `add_to_playlist` service handler then requests exactly one
coordinator refresh; and `remove_from_playlist` issues exactly one DELETE
per track id, in order (given a valid held token and an API answering
every request below 400). -/
theorem C6_playlist_mutations (apiEnv : ApiEnv) (env : TokenEnv)
    (now exp : Int) (cc pid : String) (st : TokenState) (tids : List String)
    (hA : truthyStr st.access_token = true) (hE : st.token_expires = some exp)
    (hT : now < exp - 300)
    (hApi : ∀ q, ∃ s b, apiEnv q = ApiOutcome.response s b ∧ s < 400) :
    (TidalAPI.add_to_playlist apiEnv env now cc st pid tids).2.2 =
      [builtRequest cc st "POST" ("playlists/" ++ pid ++ "/tracks") []
        (some (Json.obj [("data", Json.arr (tids.map fun track_id =>
          Json.obj [("type", Json.str "tracks"), ("id", Json.str track_id)]))]))]
    ∧ (handle_add_to_playlist apiEnv env now cc st pid tids).2 = 1
    ∧ (TidalAPI.remove_from_playlist apiEnv env now cc pid st tids).2.2 =
        tids.map (fun tid => builtRequest cc st "DELETE"
          ("playlists/" ++ pid ++ "/tracks/" ++ tid) [] none) := by
  obtain ⟨s, b, hq, hs⟩ := hApi (builtRequest cc st "POST"
    ("playlists/" ++ pid ++ "/tracks") []
    (some (Json.obj [("data", Json.arr (tids.map fun track_id =>
      Json.obj [("type", Json.str "tracks"), ("id", Json.str track_id)]))])))
  refine ⟨?_, ?_, remove_from_playlist_requests apiEnv env now exp cc pid st
    hA hE hT hApi tids⟩
  · unfold TidalAPI.add_to_playlist
    rw [request_eval_valid apiEnv env now exp cc st "POST"
      ("playlists/" ++ pid ++ "/tracks") [] _ hA hE hT]
  · unfold handle_add_to_playlist TidalAPI.add_to_playlist
    rw [request_eval_valid apiEnv env now exp cc st "POST"
      ("playlists/" ++ pid ++ "/tracks") [] _ hA hE hT]
    rw [hq]
    dsimp only [outcomeResult]
    rw [if_neg (by omega)]

/-- Witness for C6 at playlist `"p1"` and track ids `["t1", "t2"]`. -/
theorem C6_witness :
    (TidalAPI.add_to_playlist apiOk envNone 0 "US" tok0 "p1" ["t1", "t2"]).2.2 =
      [builtRequest "US" tok0 "POST" "playlists/p1/tracks" []
        (some (Json.obj [("data", Json.arr (["t1", "t2"].map fun track_id =>
          Json.obj [("type", Json.str "tracks"), ("id", Json.str track_id)]))]))]
    ∧ (handle_add_to_playlist apiOk envNone 0 "US" tok0 "p1" ["t1", "t2"]).2 = 1
    ∧ (TidalAPI.remove_from_playlist apiOk envNone 0 "US" "p1" tok0 ["t1", "t2"]).2.2 =
        ["t1", "t2"].map (fun tid => builtRequest "US" tok0 "DELETE"
          ("playlists/" ++ "p1" ++ "/tracks/" ++ tid) [] none) :=
  C6_playlist_mutations apiOk envNone 0 100000 "US" "p1" tok0 ["t1", "t2"]
    (by decide) rfl (by decide)
    (fun q => ⟨200, Json.obj [], rfl, by omega⟩)

theorem extractData_outcome_cases (st : TokenState) (d : Json) (o : ApiOutcome)
    (tc : List TokenCall) (reqs : List HttpRequest) :
    (∃ e, TidalAPI.extractData d (outcomeResult st o, tc, reqs) =
      (.error e, tc, reqs))
    ∨ (∃ s b, o = ApiOutcome.response s b ∧ s < 400 ∧
        TidalAPI.extractData d (outcomeResult st o, tc, reqs) =
          (.ok (st, b.getFieldD "data" d), tc, reqs)) := by
  cases o with
  | response s b =>
      by_cases hs : 400 ≤ s
      · left
        dsimp only [outcomeResult]
        rw [if_pos hs]
        by_cases h401 : s = 401
        · rw [if_pos h401]
          exact ⟨TidalError.authError, rfl⟩
        · rw [if_neg h401]
          exact ⟨TidalError.connError, rfl⟩
      · right
        refine ⟨s, b, rfl, by omega, ?_⟩
        dsimp only [outcomeResult]
        rw [if_neg hs]
        rfl
  | transportError => exact Or.inl ⟨TidalError.connError, rfl⟩

theorem get_user_fetch_step (apiEnv : ApiEnv) (env : TokenEnv) (now exp : Int)
    (cc : String) (st : TokenState) (d : Json) (ep : String)
    (hA : truthyStr st.access_token = true) (hE : st.token_expires = some exp)
    (hT : now < exp - 300) :
    (∃ e, TidalAPI.extractData d
        (TidalAPI.request apiEnv env now cc st "GET" ep [] none) =
      (.error e, [], [builtRequest cc st "GET" ep [] none]))
    ∨ (∃ s b, apiEnv (builtRequest cc st "GET" ep [] none) =
          ApiOutcome.response s b ∧ s < 400 ∧
        TidalAPI.extractData d
            (TidalAPI.request apiEnv env now cc st "GET" ep [] none) =
          (.ok (st, b.getFieldD "data" d), [],
           [builtRequest cc st "GET" ep [] none])) := by
  rw [request_eval_valid apiEnv env now exp cc st "GET" ep [] none hA hE hT]
  exact extractData_outcome_cases st d _ [] [builtRequest cc st "GET" ep [] none]

/-- C2: under a valid held token, every coordinator poll either leaves the
previously-held snapshot completely unchanged (whenever any of the four
collection fetches fails), or all four fetches succeeded and the snapshot
is replaced wholesale by their four `data` fields; in particular a
transport failure on the third (tracks) fetch leaves the old snapshot as
it was. -/
theorem C2_coordinator_atomicity (apiEnv : ApiEnv) (env : TokenEnv)
    (now exp : Int) (cc uid : String) (st : TokenState) (old : Option Snapshot)
    (hA : truthyStr st.access_token = true) (hE : st.token_expires = some exp)
    (hT : now < exp - 300) :
    (TidalDataUpdateCoordinator.poll apiEnv env now cc uid st old = old
     ∨ ∃ s1 b1 s2 b2 s3 b3 s4 b4,
        apiEnv (builtRequest cc st "GET"
          ("userCollections/" ++ uid ++ "/playlists") [] none) =
            ApiOutcome.response s1 b1 ∧ s1 < 400 ∧
        apiEnv (builtRequest cc st "GET"
          ("userCollections/" ++ uid ++ "/albums") [] none) =
            ApiOutcome.response s2 b2 ∧ s2 < 400 ∧
        apiEnv (builtRequest cc st "GET"
          ("userCollections/" ++ uid ++ "/tracks") [] none) =
            ApiOutcome.response s3 b3 ∧ s3 < 400 ∧
        apiEnv (builtRequest cc st "GET"
          ("userCollections/" ++ uid ++ "/artists") [] none) =
            ApiOutcome.response s4 b4 ∧ s4 < 400 ∧
        TidalDataUpdateCoordinator.poll apiEnv env now cc uid st old =
          some { playlists := b1.getFieldD "data" (Json.arr []),
                 albums := b2.getFieldD "data" (Json.arr []),
                 tracks := b3.getFieldD "data" (Json.arr []),
                 artists := b4.getFieldD "data" (Json.arr []) })
    ∧ (apiEnv (builtRequest cc st "GET"
          ("userCollections/" ++ uid ++ "/tracks") [] none) =
            ApiOutcome.transportError →
       TidalDataUpdateCoordinator.poll apiEnv env now cc uid st old = old) := by
  have main :
      TidalDataUpdateCoordinator.poll apiEnv env now cc uid st old = old
      ∨ ∃ s1 b1 s2 b2 s3 b3 s4 b4,
          apiEnv (builtRequest cc st "GET"
            ("userCollections/" ++ uid ++ "/playlists") [] none) =
              ApiOutcome.response s1 b1 ∧ s1 < 400 ∧
          apiEnv (builtRequest cc st "GET"
            ("userCollections/" ++ uid ++ "/albums") [] none) =
              ApiOutcome.response s2 b2 ∧ s2 < 400 ∧
          apiEnv (builtRequest cc st "GET"
            ("userCollections/" ++ uid ++ "/tracks") [] none) =
              ApiOutcome.response s3 b3 ∧ s3 < 400 ∧
          apiEnv (builtRequest cc st "GET"
            ("userCollections/" ++ uid ++ "/artists") [] none) =
              ApiOutcome.response s4 b4 ∧ s4 < 400 ∧
          TidalDataUpdateCoordinator.poll apiEnv env now cc uid st old =
            some { playlists := b1.getFieldD "data" (Json.arr []),
                   albums := b2.getFieldD "data" (Json.arr []),
                   tracks := b3.getFieldD "data" (Json.arr []),
                   artists := b4.getFieldD "data" (Json.arr []) } := by
    unfold TidalDataUpdateCoordinator.poll
    unfold TidalDataUpdateCoordinator.async_update_data
    unfold TidalAPI.get_user_playlists
    rcases get_user_fetch_step apiEnv env now exp cc st (Json.arr [])
        ("userCollections/" ++ uid ++ "/playlists") hA hE hT with
      ⟨e1, hc1⟩ | ⟨s1, b1, ho1, hs1, hc1⟩
    · rw [hc1]
      exact Or.inl rfl
    · rw [hc1]
      dsimp only
      unfold TidalAPI.get_user_albums
      rcases get_user_fetch_step apiEnv env now exp cc st (Json.arr [])
          ("userCollections/" ++ uid ++ "/albums") hA hE hT with
        ⟨e2, hc2⟩ | ⟨s2, b2, ho2, hs2, hc2⟩
      · rw [hc2]
        exact Or.inl rfl
      · rw [hc2]
        dsimp only
        unfold TidalAPI.get_user_tracks
        rcases get_user_fetch_step apiEnv env now exp cc st (Json.arr [])
            ("userCollections/" ++ uid ++ "/tracks") hA hE hT with
          ⟨e3, hc3⟩ | ⟨s3, b3, ho3, hs3, hc3⟩
        · rw [hc3]
          exact Or.inl rfl
        · rw [hc3]
          dsimp only
          unfold TidalAPI.get_user_artists
          rcases get_user_fetch_step apiEnv env now exp cc st (Json.arr [])
              ("userCollections/" ++ uid ++ "/artists") hA hE hT with
            ⟨e4, hc4⟩ | ⟨s4, b4, ho4, hs4, hc4⟩
          · rw [hc4]
            exact Or.inl rfl
          · rw [hc4]
            exact Or.inr ⟨s1, b1, s2, b2, s3, b3, s4, b4,
              ho1, hs1, ho2, hs2, ho3, hs3, ho4, hs4, rfl⟩
  refine ⟨main, ?_⟩
  intro hTr
  rcases main with h | ⟨s1, b1, s2, b2, s3, b3, s4, b4,
      _, _, _, _, ho3, _, _, _, _⟩
  · exact h
  · rw [hTr] at ho3
    exact absurd ho3 (by simp)

/-- Witness for C2: a poll against an API whose tracks fetch fails at
transport level leaves the held snapshot unchanged. -/
theorem C2_witness :
    TidalDataUpdateCoordinator.poll apiFailTracks envNone 0 "US" "u1" tok0
      (some snap0) = some snap0 :=
  (C2_coordinator_atomicity apiFailTracks envNone 0 100000 "US" "u1" tok0
    (some snap0) (by decide) rfl (by decide)).2 rfl

theorem extractData_request_ok (apiEnv : ApiEnv) (env : TokenEnv) (now exp : Int)
    (cc : String) (st : TokenState) (m ep : String) (d : Json) (s : Nat) (b : Json)
    (hA : truthyStr st.access_token = true) (hE : st.token_expires = some exp)
    (hT : now < exp - 300)
    (hq : apiEnv (builtRequest cc st m ep [] none) = ApiOutcome.response s b)
    (hs : s < 400) :
    TidalAPI.extractData d (TidalAPI.request apiEnv env now cc st m ep [] none) =
      (.ok (st, b.getFieldD "data" d), [], [builtRequest cc st m ep [] none]) := by
  rw [request_eval_valid apiEnv env now exp cc st m ep [] none hA hE hT, hq]
  dsimp only [outcomeResult]
  rw [if_neg (by omega)]
  rfl

theorem fetchTracks_eval (apiEnv : ApiEnv) (env : TokenEnv) (now exp : Int)
    (cc : String) (st : TokenState) (tb : String → Json)
    (hA : truthyStr st.access_token = true) (hE : st.token_expires = some exp)
    (hT : now < exp - 300) :
    ∀ ids : List String,
      (∀ tid ∈ ids, apiEnv (builtRequest cc st "GET" ("tracks/" ++ tid) [] none) =
        ApiOutcome.response 200 (tb tid)) →
      TidalDataUpdateCoordinator.fetchTracks apiEnv env now cc st ids =
        (.ok (st, ids.map fun tid => (tb tid).getFieldD "data" (Json.obj [])),
         ids.map fun tid => builtRequest cc st "GET" ("tracks/" ++ tid) [] none) := by
  intro ids
  induction ids with
  | nil => intro _; rfl
  | cons tid rest ih =>
      intro htr
      unfold TidalDataUpdateCoordinator.fetchTracks
      unfold TidalAPI.get_track
      rw [extractData_request_ok apiEnv env now exp cc st "GET" ("tracks/" ++ tid)
        (Json.obj []) 200 (tb tid) hA hE hT (htr tid (List.mem_cons_self tid rest))
        (by omega)]
      dsimp only
      rw [ih (fun t h => htr t (List.mem_cons_of_mem tid h))]
      simp

/-- C9: each detail fetcher retrieves the parent resource, extracts the
track ids from its tracks relationship, fetches each track individually
via `get_track` and returns the fetched tracks in that order; when the
parent has no tracks relationship it returns an empty sequence and issues
no track fetch. -/
theorem C9_detail_fetchers (apiEnv : ApiEnv) (env : TokenEnv) (now exp : Int)
    (cc pid aid : String) (st : TokenState) (tb : String → Json)
    (bodyP bodyA : Json)
    (hA : truthyStr st.access_token = true) (hE : st.token_expires = some exp)
    (hT : now < exp - 300)
    (hP : apiEnv (builtRequest cc st "GET" ("playlists/" ++ pid) [] none) =
      ApiOutcome.response 200 bodyP)
    (hAl : apiEnv (builtRequest cc st "GET" ("albums/" ++ aid) [] none) =
      ApiOutcome.response 200 bodyA) :
    (∀ entries,
      relationshipTrackEntries (bodyP.getFieldD "data" (Json.obj [])) = some entries →
      (∀ tid ∈ entries.map entryId,
        apiEnv (builtRequest cc st "GET" ("tracks/" ++ tid) [] none) =
          ApiOutcome.response 200 (tb tid)) →
      TidalDataUpdateCoordinator.async_get_playlist_tracks apiEnv env now cc st pid =
        (.ok (st, (entries.map entryId).map fun tid =>
            (tb tid).getFieldD "data" (Json.obj [])),
         builtRequest cc st "GET" ("playlists/" ++ pid) [] none ::
           (entries.map entryId).map fun tid =>
             builtRequest cc st "GET" ("tracks/" ++ tid) [] none))
    ∧ (relationshipTrackEntries (bodyP.getFieldD "data" (Json.obj [])) = none →
      TidalDataUpdateCoordinator.async_get_playlist_tracks apiEnv env now cc st pid =
        (.ok (st, []), [builtRequest cc st "GET" ("playlists/" ++ pid) [] none]))
    ∧ (∀ entries,
      relationshipTrackEntries (bodyA.getFieldD "data" (Json.obj [])) = some entries →
      (∀ tid ∈ entries.map entryId,
        apiEnv (builtRequest cc st "GET" ("tracks/" ++ tid) [] none) =
          ApiOutcome.response 200 (tb tid)) →
      TidalDataUpdateCoordinator.async_get_album_tracks apiEnv env now cc st aid =
        (.ok (st, (entries.map entryId).map fun tid =>
            (tb tid).getFieldD "data" (Json.obj [])),
         builtRequest cc st "GET" ("albums/" ++ aid) [] none ::
           (entries.map entryId).map fun tid =>
             builtRequest cc st "GET" ("tracks/" ++ tid) [] none))
    ∧ (relationshipTrackEntries (bodyA.getFieldD "data" (Json.obj [])) = none →
      TidalDataUpdateCoordinator.async_get_album_tracks apiEnv env now cc st aid =
        (.ok (st, []), [builtRequest cc st "GET" ("albums/" ++ aid) [] none])) := by
  refine ⟨?_, ?_, ?_, ?_⟩
  · intro entries hrel htr
    unfold TidalDataUpdateCoordinator.async_get_playlist_tracks
    unfold TidalAPI.get_playlist
    rw [extractData_request_ok apiEnv env now exp cc st "GET" ("playlists/" ++ pid)
      (Json.obj []) 200 bodyP hA hE hT hP (by omega)]
    dsimp only
    rw [hrel]
    dsimp only
    rw [fetchTracks_eval apiEnv env now exp cc st tb hA hE hT (entries.map entryId) htr]
    simp
  · intro hrel
    unfold TidalDataUpdateCoordinator.async_get_playlist_tracks
    unfold TidalAPI.get_playlist
    rw [extractData_request_ok apiEnv env now exp cc st "GET" ("playlists/" ++ pid)
      (Json.obj []) 200 bodyP hA hE hT hP (by omega)]
    dsimp only
    rw [hrel]
  · intro entries hrel htr
    unfold TidalDataUpdateCoordinator.async_get_album_tracks
    unfold TidalAPI.get_album
    rw [extractData_request_ok apiEnv env now exp cc st "GET" ("albums/" ++ aid)
      (Json.obj []) 200 bodyA hA hE hT hAl (by omega)]
    dsimp only
    rw [hrel]
    dsimp only
    rw [fetchTracks_eval apiEnv env now exp cc st tb hA hE hT (entries.map entryId) htr]
    simp
  · intro hrel
    unfold TidalDataUpdateCoordinator.async_get_album_tracks
    unfold TidalAPI.get_album
    rw [extractData_request_ok apiEnv env now exp cc st "GET" ("albums/" ++ aid)
      (Json.obj []) 200 bodyA hA hE hT hAl (by omega)]
    dsimp only
    rw [hrel]

/-- Witness for C9: a playlist whose tracks relationship holds one track
`"t1"` yields that one fetched track, in order, after one parent fetch. -/
theorem C9_witness :
    TidalDataUpdateCoordinator.async_get_playlist_tracks apiC9 envNone 0 "US"
      tok0 "p1" =
      (.ok (tok0, [Json.obj []]),
       [builtRequest "US" tok0 "GET" ("playlists/" ++ "p1") [] none,
        builtRequest "US" tok0 "GET" ("tracks/" ++ "t1") [] none]) :=
  (C9_detail_fetchers apiC9 envNone 0 100000 "US" "p1" "a1" tok0
      (fun _ => Json.obj []) playlistBody (Json.obj [])
      (by decide) rfl (by decide) rfl rfl).1
    [Json.obj [("id", Json.str "t1")]] rfl
    (by intro tid h; simp at h; subst h; rfl)

end Tidal
